import Mathlib

/-!
Shallow embedding of the model registry and inference dispatch engine of
`src/python/kubernetes_mcp_server/inference_server.py` (the tensor/tokenizer
backed server variant, which the design document designates as authoritative).

Modelling conventions:
- Python floats are modelled as rationals (`ℚ`); the claims under study are
  about dispatch, error kinds and shapes, never about float rounding.
- The four admissible payload forms of `InferenceRequest.inputs`
  (`str | List[str] | List[float] | List[List[float]]`) are the constructors
  of `Inputs`.
- Exceptions raised inside an adapter are `Except`-errors of type
  `AdapterErr`; `InferenceEngine.predict` wraps any of them into the HTTP-500
  carrying error (`ErrKind.inferenceFailure`), mirroring the
  `try/except Exception` at lines 99-106 of the source.
- Opaque torch / transformers handles are modelled by their observable
  behaviour: a numeric model is a `Sequential`-style list of layers over ℚ
  with torch's shape discipline; a text model is a function from a padded
  token-id matrix row to the per-token hidden-state rows
  (`last_hidden_state` of that batch element — transformer forward passes
  act row-independently on a batch).
- Python `dict` (3.7+) is modelled as an association list with
  insertion-order iteration and in-place overwrite, which is exactly the
  observable contract `ModelRegistry` relies on.
-/

namespace InferenceServer

/-- Decidable equality for `Except` results, so concrete runs of the engine
can be checked by `decide`. -/
instance {ε α : Type} [DecidableEq ε] [DecidableEq α] :
    DecidableEq (Except ε α) := fun x y =>
  match x, y with
  | .ok a, .ok b =>
      if h : a = b then .isTrue (by rw [h])
      else .isFalse (fun he => h (Except.ok.inj he))
  | .error a, .error b =>
      if h : a = b then .isTrue (by rw [h])
      else .isFalse (fun he => h (Except.error.inj he))
  | .ok _, .error _ => .isFalse (fun h => Except.noConfusion h)
  | .error _, .ok _ => .isFalse (fun h => Except.noConfusion h)

/-- Errors raised inside the adapters (`_numeric_inference`,
`_text_embedding_inference`) or the underlying torch / tokenizer calls;
each constructor names the Python exception it models. -/
inductive AdapterErr where
  /-- the `ValueError("Tokenizer not found for text model")` at line 113 -/
  | tokenizerNotFound
  /-- `torch.tensor` on a ragged nested list (line 137) raises `ValueError` -/
  | raggedTensor
  /-- `inputs[0]` on an empty sequence (line 132) raises `IndexError` -/
  | indexOutOfRange
  /-- type mismatch: tokenizing numeric data, tensor from strings, or calling
  a handle with arguments of the wrong calling convention -/
  | typeError
  /-- torch shape mismatch inside a forward pass (e.g. `nn.Linear` applied to
  a row whose width differs from `in_features`) -/
  | shapeMismatch
deriving DecidableEq, Repr

/-- The error taxonomy of the design document (section 7): `ModelNotFound`,
`TokenizerMissing`, `InvalidInputShape`, `InferenceFailure`. The code only
ever produces `modelNotFound` (the HTTP 404 at line 97) and
`inferenceFailure` (the HTTP 500 wrapper at line 106); the two remaining
kinds exist in the taxonomy so that claims about them can be stated. -/
inductive ErrKind where
  | modelNotFound (name : String)
  | tokenizerMissing
  | invalidInputShape
  | inferenceFailure (cause : AdapterErr)
deriving DecidableEq, Repr

/-- The four payload forms admitted by `InferenceRequest.inputs`:
`Union[List[str], List[List[float]], str, List[float]]`. -/
inductive Inputs where
  | str (s : String)
  | strList (ss : List String)
  | numList (xs : List ℚ)
  | numMatrix (xss : List (List ℚ))
deriving DecidableEq, Repr

/-- Dot product of two rows, the elementwise-product-then-sum of a torch
matmul cell. -/
def dot (u v : List ℚ) : ℚ := (List.zipWith (· * ·) u v).sum

/-- One layer of the `nn.Sequential` making up `SimpleModel`: `nn.Linear`
with its weight matrix (`out_features` rows of `in_features` entries) and
bias vector, or `nn.ReLU`. -/
inductive Layer where
  | linear (weight : List (List ℚ)) (bias : List ℚ)
  | relu
deriving DecidableEq, Repr

/-- Apply one layer to one row of the batch. `nn.Linear` demands the row
width equal `in_features` (every weight row's length) and errors with a
shape mismatch otherwise; `nn.ReLU` is pointwise `max 0`. -/
def Layer.applyRow : Layer → List ℚ → Except AdapterErr (List ℚ)
  | .linear w b, x =>
      if (w.all fun row => row.length == x.length) && (b.length == w.length)
      then .ok (List.zipWith (fun row bi => dot row x + bi) w b)
      else .error .shapeMismatch
  | .relu, x => .ok (x.map fun v => max v 0)

/-- Thread one row through a list of layers, propagating the first error,
as `nn.Sequential.forward` does. -/
def applyLayers : List Layer → List ℚ → Except AdapterErr (List ℚ)
  | [], x => .ok x
  | l :: ls, x =>
      match l.applyRow x with
      | .error e => .error e
      | .ok y => applyLayers ls y

/-- A numeric model handle: the layer list of its `nn.Sequential` network
(`SimpleModel.network` in the source). -/
structure NumericNet where
  layers : List Layer
deriving DecidableEq, Repr

/-- Forward pass of a numeric model on one row of the batch. -/
def NumericNet.forwardRow (net : NumericNet) (x : List ℚ) :
    Except AdapterErr (List ℚ) :=
  applyLayers net.layers x

/-- Forward pass on a whole batch: torch applies `Linear`/`ReLU` rows
independently, so the batch result is the row-wise result. -/
def NumericNet.forwardRows (net : NumericNet) :
    List (List ℚ) → Except AdapterErr (List (List ℚ))
  | [] => .ok []
  | r :: rs =>
      match net.forwardRow r with
      | .error e => .error e
      | .ok y =>
          match net.forwardRows rs with
          | .error e => .error e
          | .ok ys => .ok (y :: ys)

/-- A tokenizer handle (`AutoTokenizer`): `encode` turns one string into its
token-id sequence (truncation to the model's maximum context length is a
per-string affair and is folded into `encode`); `padId` is the padding
token id used when padding a batch to its longest member. -/
structure Tokenizer where
  encode : String → List Nat
  padId : Nat

/-- The call `tokenizer(inputs, padding=True, truncation=True, ...)` at line
119: encode every string and right-pad each row to the longest row of the
batch with the padding token. -/
def Tokenizer.encodeBatch (tok : Tokenizer) (batch : List String) :
    List (List Nat) :=
  let rows := batch.map tok.encode
  let maxLen := rows.foldl (fun a r => max a r.length) 0
  rows.map fun r => r ++ List.replicate (maxLen - r.length) tok.padId

/-- A registered model handle: either a numeric net (`SimpleModel`) or a text
model, given by the map from one padded token-id row to that row's
`last_hidden_state` rows (one hidden vector per token position). Transformer
forward passes act independently per batch row, so this per-row function
determines the batched `last_hidden_state`. -/
inductive ModelHandle where
  | numeric (net : NumericNet)
  | text (hidden : List Nat → List (List ℚ))

/-- Python 3.7+ `dict` assignment `d[k] = v`: overwrite in place when the key
exists (keeping its position in iteration order), else append. -/
def dictInsert {α : Type} (d : List (String × α)) (k : String) (v : α) :
    List (String × α) :=
  if d.any (fun p => p.1 == k)
  then d.map fun p => if p.1 == k then (k, v) else p
  else d ++ [(k, v)]

/-- Python `dict.get(k)`: the first (only) binding of `k`, if any. -/
def dictGet {α : Type} (d : List (String × α)) (k : String) : Option α :=
  (d.find? fun p => p.1 == k).map Prod.snd

/-- Python `list(d.keys())`: the keys in insertion order. -/
def dictKeys {α : Type} (d : List (String × α)) : List String :=
  d.map Prod.fst

/-- The `ModelRegistry` state: its `models` and `tokenizers` dicts. -/
structure ModelRegistry where
  models : List (String × ModelHandle)
  tokenizers : List (String × Tokenizer)

/-- The registry with nothing loaded. -/
def ModelRegistry.empty : ModelRegistry := ⟨[], []⟩

/-- Registering an entry, as the loader does with
`self.models[name] = handle` (and `self.tokenizers[name] = tok` when a
tokenizer accompanies the model). -/
def ModelRegistry.register (r : ModelRegistry) (name : String)
    (handle : ModelHandle) (tok : Option Tokenizer) : ModelRegistry :=
  { models := dictInsert r.models name handle
    tokenizers :=
      match tok with
      | none => r.tokenizers
      | some t => dictInsert r.tokenizers name t }

/-- `ModelRegistry.get_model` (line 76-77). -/
def ModelRegistry.get_model (r : ModelRegistry) (name : String) :
    Option ModelHandle :=
  dictGet r.models name

/-- `ModelRegistry.get_tokenizer` (line 79-80). -/
def ModelRegistry.get_tokenizer (r : ModelRegistry) (name : String) :
    Option Tokenizer :=
  dictGet r.tokenizers name

/-- `ModelRegistry.list_models` (line 82-83): `list(self.models.keys())`. -/
def ModelRegistry.list_models (r : ModelRegistry) : List String :=
  dictKeys r.models

/-- Mean over the token dimension, `last_hidden_state.mean(dim=1)` at line
124 for one batch element: the componentwise average of the per-token hidden
vectors — including the positions holding padding tokens, since the code
pools over every position. -/
def meanPool (hs : List (List ℚ)) : List ℚ :=
  match hs with
  | [] => []
  | h :: t => ((t.foldl (fun a r => List.zipWith (· + ·) a r) h).map
      fun x => x / ((t.length + 1 : ℕ) : ℚ))

/-- `InferenceEngine._text_embedding_inference` (lines 108-126): require the
tokenizer (line 112-113, `ValueError` when absent), promote a bare string to
a batch of one (lines 115-116), tokenize with padding to the longest member
of the batch, run the text model and mean-pool each element's hidden states.
A numeric payload makes the tokenizer call raise, and a numeric handle does
not accept the tokenizer's keyword calling convention; both surface as
adapter errors. -/
def textEmbeddingInference (tok? : Option Tokenizer) (model : ModelHandle)
    (inputs : Inputs) : Except AdapterErr (List (List ℚ)) :=
  match tok? with
  | none => .error .tokenizerNotFound
  | some tok =>
      match inputs with
      | .numList _ => .error .typeError
      | .numMatrix _ => .error .typeError
      | .str s =>
          match model with
          | .numeric _ => .error .typeError
          | .text hidden => .ok (((tok.encodeBatch [s]).map hidden).map meanPool)
      | .strList ss =>
          match model with
          | .numeric _ => .error .typeError
          | .text hidden => .ok (((tok.encodeBatch ss).map hidden).map meanPool)

/-- `InferenceEngine._numeric_inference` (lines 128-142): probe `inputs[0]`
(an `IndexError` on an empty sequence); a number there means a single sample,
wrapped into a one-row batch (`torch.tensor([inputs])`); otherwise the
payload is taken as a batch, and `torch.tensor` demands equal row lengths
(`ValueError` on ragged input) — strings anywhere make the tensor
constructor raise. The forward pass runs under `torch.no_grad()`, which has
no observable effect on the outputs. -/
def numericInference (inputs : Inputs) (model : ModelHandle) :
    Except AdapterErr (List (List ℚ)) :=
  match model with
  | .text _ => .error .typeError
  | .numeric net =>
      match inputs with
      | .str s => if s.length == 0 then .error .indexOutOfRange else .error .typeError
      | .strList [] => .error .indexOutOfRange
      | .strList (_ :: _) => .error .typeError
      | .numList [] => .error .indexOutOfRange
      | .numList (x :: xs) => net.forwardRows [x :: xs]
      | .numMatrix [] => .error .indexOutOfRange
      | .numMatrix (r :: rs) =>
          if (r :: rs).all (fun row => row.length == r.length)
          then net.forwardRows (r :: rs)
          else .error .raggedTensor

/-- `InferenceEngine.predict` (lines 88-106): resolve the model (HTTP 404 —
`ModelNotFound` — when absent; the source spells this `raise` with the
message positional after the keyword argument `status_code`, a Python
`SyntaxError`, so the evident intent of line 97 is modelled); then branch on
the literal name equality `model_name == "text_embeddings"` to pick the
adapter, and wrap any adapter exception into the HTTP 500 `InferenceFailure`
(lines 104-106). The `parameters` argument is accepted and never used, as in
the source. -/
def predict (reg : ModelRegistry) (inputs : Inputs) (modelName : String)
    (_params : List (String × String) := []) :
    Except ErrKind (List (List ℚ)) :=
  match reg.get_model modelName with
  | none => .error (.modelNotFound modelName)
  | some model =>
      let r :=
        if modelName == "text_embeddings"
        then textEmbeddingInference (reg.get_tokenizer modelName) model inputs
        else numericInference inputs model
      match r with
      | .ok outputs => .ok outputs
      | .error e => .error (.inferenceFailure e)

/-- The strategy `predict` selects for a resolved entry. -/
inductive Strategy where
  | text
  | numeric
deriving DecidableEq, Repr

/-- The strategy-selection step of `predict` in isolation (lines 100-103):
`none` when the model is absent, otherwise text exactly for the literal
model name `"text_embeddings"` and numeric for every other name. -/
def selectedStrategy (reg : ModelRegistry) (modelName : String) :
    Option Strategy :=
  (reg.get_model modelName).map fun _ =>
    if modelName == "text_embeddings" then .text else .numeric

/-- Helper for the numpy shape string of a 1-d array, e.g. `(3,)`. -/
def npShape1 (n : ℕ) : String := "(" ++ toString n ++ ",)"

/-- Helper for the numpy shape string of a 2-d array, e.g. `(2, 3)`. -/
def npShape2 (n m : ℕ) : String := "(" ++ toString n ++ ", " ++ toString m ++ ")"

/-- The metadata value built at line 163:
`str(np.array(request.inputs).shape)` when the payload is a list, the
literal string `"text"` for a bare string. A list of scalars or of strings
is 1-d; a rectangular nested list is 2-d. (A ragged nested list never
reaches this point, since `predict` fails on it first; it is rendered here
as the 1-d shape.) -/
def inputShapeString : Inputs → String
  | .str _ => "text"
  | .strList ss => npShape1 ss.length
  | .numList xs => npShape1 xs.length
  | .numMatrix [] => npShape1 0
  | .numMatrix (r :: rs) =>
      if (r :: rs).all (fun row => row.length == r.length)
      then npShape2 (rs.length + 1) r.length
      else npShape1 (rs.length + 1)

/-- The `InferenceRequest` payload (lines 25-28). `parameters` defaults to
the empty mapping; values are kept opaque as strings. -/
structure InferenceRequest where
  inputs : Inputs
  model_name : String := "default"
  parameters : List (String × String) := []

/-- The `InferenceResponse` payload (lines 30-34); metadata is the mapping
built at line 163, a single `input_shape` key. -/
structure InferenceResponse where
  outputs : List (List ℚ)
  model_name : String
  processing_time_ms : ℚ
  metadata : List (String × String)
deriving DecidableEq, Repr

/-- The `/infer` handler (lines 144-164): read the clock (`time.time()`, the
non-monotonic wall clock) before dispatch and after completion, run
`predict`, and on success package outputs, name, the elapsed milliseconds
`(t1 - t0) * 1000` and the metadata mapping; on failure re-raise the typed
error. The two wall-clock readings are explicit arguments `t0, t1` (the
values `time.time()` returned at lines 148 and 157). -/
def infer (reg : ModelRegistry) (req : InferenceRequest) (t0 t1 : ℚ) :
    Except ErrKind InferenceResponse :=
  match predict reg req.inputs req.model_name req.parameters with
  | .error e => .error e
  | .ok outputs =>
      .ok { outputs := outputs
            model_name := req.model_name
            processing_time_ms := (t1 - t0) * 1000
            metadata := [("input_shape", inputShapeString req.inputs)] }

/-- Shape discipline of a layer stack: `LayersShape ls din dout` says that a
row of width `din` flows through `ls` without a torch shape error and comes
out with width `dout` — each `nn.Linear`'s `in_features` (the width of every
weight row) matches the incoming width, and its `out_features` (the number
of weight rows, equal to the bias length) is the width passed on. -/
inductive LayersShape : List Layer → ℕ → ℕ → Prop where
  | nil (d : ℕ) : LayersShape [] d d
  | linear {w : List (List ℚ)} {b : List ℚ} {ls : List Layer} {din dout : ℕ}
      (hw : ∀ row ∈ w, row.length = din) (hb : b.length = w.length)
      (hrest : LayersShape ls w.length dout) :
      LayersShape (Layer.linear w b :: ls) din dout
  | relu {ls : List Layer} {din dout : ℕ}
      (hrest : LayersShape ls din dout) : LayersShape (Layer.relu :: ls) din dout

/-- Populating a registry by a sequence of `register` calls, as the startup
loader does (name, handle, optional tokenizer per entry). -/
def registerAll (r : ModelRegistry)
    (entries : List (String × ModelHandle × Option Tokenizer)) : ModelRegistry :=
  entries.foldl (fun acc e => acc.register e.1 e.2.1 e.2.2) r

/-- Concrete numeric fixture: a `SimpleModel`-shaped net (`Linear, ReLU,
Linear, ReLU, Linear`) with `input_size = 2`, `hidden_size = 1`,
`output_size = 1` and explicit weights. -/
def net0 : NumericNet :=
  ⟨[.linear [[1, 1]] [0], .relu, .linear [[1]] [0], .relu, .linear [[1]] [0]]⟩

/-- Concrete tokenizer fixture: one token per character (its code point),
padding token id `0`. -/
def tok0 : Tokenizer := ⟨fun s => s.data.map Char.toNat, 0⟩

/-- Concrete text-model fixture: the hidden state at each token position is
the one-dimensional vector holding that position's token id. -/
def hidden0 : List Nat → List (List ℚ) := fun r => r.map fun t => [(t : ℚ)]

/-- Registry fixture holding one numeric entry named `"default"`. -/
def regNum : ModelRegistry := ⟨[("default", .numeric net0)], []⟩

/-- Registry fixture holding the text entry `"text_embeddings"` with its
tokenizer, the well-formed text configuration of the source loader. -/
def regText : ModelRegistry :=
  ⟨[("text_embeddings", .text hidden0)], [("text_embeddings", tok0)]⟩

/-- Registry fixture holding both a numeric and a text entry. -/
def regBoth : ModelRegistry :=
  ⟨[("default", .numeric net0), ("text_embeddings", .text hidden0)],
   [("text_embeddings", tok0)]⟩

/-- Registry fixture for strategy selection: an entry named `"foo"` whose
declared capability is text (model and tokenizer both present). -/
def regC1 : ModelRegistry := ⟨[("foo", .text hidden0)], [("foo", tok0)]⟩

/-- Registry fixture for the missing-tokenizer scenario: the model
`"text_embeddings"` is registered but no tokenizer accompanies it. -/
def regC4 : ModelRegistry := ⟨[("text_embeddings", .text hidden0)], []⟩

/-- Registration fixture: the two default entries the startup loader
installs, a numeric model and the tokenizer-backed text model. -/
def entriesW : List (String × ModelHandle × Option Tokenizer) :=
  [("default", .numeric net0, none),
   ("text_embeddings", .text hidden0, some tok0)]

/-- A `Linear` layer applied to a row of its `in_features` width succeeds
and yields the affine image of the row. -/
theorem applyRow_linear_ok {w : List (List ℚ)} {b : List ℚ} {x : List ℚ}
    {din : ℕ} (hw : ∀ row ∈ w, row.length = din) (hb : b.length = w.length)
    (hx : x.length = din) :
    Layer.applyRow (.linear w b) x
      = .ok (List.zipWith (fun row bi => dot row x + bi) w b) := by
  have hcond : ((w.all fun row => row.length == x.length)
      && (b.length == w.length)) = true := by
    rw [Bool.and_eq_true]
    constructor
    · rw [List.all_eq_true]
      intro row hrow
      simpa [beq_iff_eq, hx] using hw row hrow
    · simpa [beq_iff_eq] using hb
  simp [Layer.applyRow, hcond]

/-- A well-shaped layer stack maps a row of the input width to a row of the
output width, with no shape error. -/
theorem applyLayers_shape {ls : List Layer} {din dout : ℕ}
    (h : LayersShape ls din dout) :
    ∀ x : List ℚ, x.length = din →
      ∃ y, applyLayers ls x = .ok y ∧ y.length = dout := by
  induction h with
  | nil d => exact fun x hx => ⟨x, rfl, hx⟩
  | @linear w b ls din dout hw hb hrest ih =>
      intro x hx
      obtain ⟨y, hy, hylen⟩ :=
        ih (List.zipWith (fun row bi => dot row x + bi) w b)
          (by rw [List.length_zipWith, hb, min_self])
      exact ⟨y, by simp [applyLayers, applyRow_linear_ok hw hb hx, hy], hylen⟩
  | @relu ls din dout hrest ih =>
      intro x hx
      obtain ⟨y, hy, hylen⟩ := ih (x.map fun v => max v 0) (by simp [hx])
      exact ⟨y, by simp [applyLayers, Layer.applyRow, hy], hylen⟩

/-- Batched forward pass of a well-shaped net: every batch of rows of the
input width succeeds, the batch dimension is preserved and each output row
has the output width. -/
theorem forwardRows_shape {net : NumericNet} {din dout : ℕ}
    (h : LayersShape net.layers din dout) :
    ∀ rows : List (List ℚ), (∀ r ∈ rows, r.length = din) →
      ∃ outs, net.forwardRows rows = .ok outs ∧
        outs.length = rows.length ∧ ∀ o ∈ outs, o.length = dout := by
  intro rows
  induction rows with
  | nil => exact fun _ => ⟨[], rfl, rfl, by simp⟩
  | cons r rs ih =>
      intro hall
      obtain ⟨y, hy, hylen⟩ := applyLayers_shape h r (hall r (by simp))
      obtain ⟨ys, hys, hyslen, htail⟩ := ih fun r' hr' => hall r' (by simp [hr'])
      refine ⟨y :: ys, ?_, by simp [hyslen], ?_⟩
      · simp [NumericNet.forwardRows, NumericNet.forwardRow, hy, hys]
      · intro o ho
        rcases List.mem_cons.mp ho with h1 | h2
        · rw [h1]; exact hylen
        · exact htail o h2

/-- The text adapter treats a bare string exactly as the batch holding only
that string, by the promotion at lines 115-116. -/
theorem textEmbeddingInference_str (tok? : Option Tokenizer)
    (m : ModelHandle) (s : String) :
    textEmbeddingInference tok? m (.str s)
      = textEmbeddingInference tok? m (.strList [s]) := by
  cases tok? <;> cases m <;> rfl

/-- Inserting a fresh key into a dict appends it to the iteration order. -/
theorem dictKeys_insert_of_notMem {α : Type} {d : List (String × α)}
    {k : String} (v : α) (hk : k ∉ dictKeys d) :
    dictKeys (dictInsert d k v) = dictKeys d ++ [k] := by
  have hany : (d.any fun p => p.1 == k) = false := by
    rw [List.any_eq_false]
    intro p hp
    simp only [beq_iff_eq]
    intro he
    exact hk (he ▸ List.mem_map_of_mem Prod.fst hp)
  simp [dictInsert, hany, dictKeys]

/-- Registering a batch of fresh, pairwise-distinct names appends them to
the listed model names in registration order. -/
theorem list_models_registerAll
    (entries : List (String × ModelHandle × Option Tokenizer)) :
    ∀ r : ModelRegistry, (∀ e ∈ entries, e.1 ∉ r.list_models) →
      (entries.map fun e => e.1).Nodup →
      (registerAll r entries).list_models
        = r.list_models ++ entries.map fun e => e.1 := by
  induction entries with
  | nil => intro r _ _; simp [registerAll]
  | cons e es ih =>
      intro r hdis hnodup
      have hstep : (r.register e.1 e.2.1 e.2.2).list_models
          = r.list_models ++ [e.1] := by
        have hnot : e.1 ∉ dictKeys r.models := hdis e (by simp)
        simpa [ModelRegistry.register, ModelRegistry.list_models]
          using dictKeys_insert_of_notMem e.2.1 hnot
      have hmap : ((e :: es).map fun x => x.1)
          = e.1 :: (es.map fun x => x.1) := by simp
      rw [hmap, List.nodup_cons] at hnodup
      have hdis' : ∀ e' ∈ es, e'.1 ∉ (r.register e.1 e.2.1 e.2.2).list_models := by
        intro e' he'
        rw [hstep]
        intro hmem
        rcases List.mem_append.mp hmem with h1 | h2
        · exact hdis e' (by simp [he']) h1
        · have : e'.1 = e.1 := by simpa using h2
          exact hnodup.1 (this ▸ List.mem_map_of_mem (fun x => x.1) he')
      have hrec : (registerAll (r.register e.1 e.2.1 e.2.2) es).list_models
          = (r.register e.1 e.2.1 e.2.2).list_models ++ es.map fun x => x.1 :=
        ih (r.register e.1 e.2.1 e.2.2) hdis' hnodup.2
      have hfold : registerAll r (e :: es)
          = registerAll (r.register e.1 e.2.1 e.2.2) es := by
        simp [registerAll]
      rw [hfold, hrec, hstep, hmap, List.append_assoc]
      simp

/-- The numpy shape string of a two-element 1-d payload. -/
theorem npShape1_two : npShape1 2 = "(2,)" := rfl

/-- C1, counterexample: the registry entry `"foo"` has a declared text
capability (its tokenizer is present), yet `predict`'s strategy selection
routes it to the numeric path, because the selection at line 100 compares
the model name against the literal `"text_embeddings"` instead of
consulting the entry's tokenizer. This falsifies the claim that the text
path is chosen exactly when the entry has a tokenizer. -/
theorem c1_counterexample :
    selectedStrategy regC1 "foo" = some Strategy.numeric ∧
    (regC1.get_tokenizer "foo").isSome = true := by
  constructor
  · simp [selectedStrategy, ModelRegistry.get_model, dictGet, regC1]
  · simp [ModelRegistry.get_tokenizer, dictGet, regC1]

/-- C1, amended: for every registered entry, `predict` selects the
text-embedding path exactly when the model name is the literal string
`"text_embeddings"`; selection is string-matching on the name and is
independent of whether a tokenizer is attached. -/
theorem c1_theorem (reg : ModelRegistry) (name : String) (m : ModelHandle)
    (hm : reg.get_model name = some m) :
    selectedStrategy reg name = some Strategy.text ↔ name = "text_embeddings" := by
  by_cases hn : name = "text_embeddings"
  · subst hn; simp [selectedStrategy, hm]
  · simp [selectedStrategy, hm, hn]

/-- C1, witness: the amended selection rule instantiated at the registered
entry `"foo"` of the fixture registry. -/
theorem c1_witness :
    selectedStrategy regC1 "foo" = some Strategy.text ↔ "foo" = "text_embeddings" :=
  c1_theorem regC1 "foo" (.text hidden0)
    (by simp [ModelRegistry.get_model, dictGet, regC1])

/-- C2: for every model name the registry does not hold, `predict` returns
the structured `ModelNotFound` error carrying that name (the evident intent
of line 97; as written that line is a Python `SyntaxError` — the detail
message is passed positionally after the keyword argument `status_code` —
which is the code bug recorded for this claim). -/
theorem c2_theorem (reg : ModelRegistry) (inputs : Inputs) (name : String)
    (params : List (String × String)) (h : reg.get_model name = none) :
    predict reg inputs name params = .error (.modelNotFound name) := by
  simp [predict, h]

/-- C2, witness: the lookup-failure path evaluated at the absent model name
`"ghost"` of the failing input. -/
theorem c2_witness :
    predict regNum (.numList [1, 2]) "ghost" [] = .error (.modelNotFound "ghost") :=
  c2_theorem regNum (.numList [1, 2]) "ghost" []
    (by simp [ModelRegistry.get_model, dictGet, regNum])

/-- C3, counterexample: the ragged batch `[[1,2],[1,2,3]]` submitted to the
registered numeric entry `"default"` makes `predict` fail with the wrapped
`InferenceFailure` kind (the HTTP 500 of lines 104-106, wrapping the
`torch.tensor` `ValueError`), which is not the `InvalidInputShape` kind the
claim requires. -/
theorem c3_counterexample :
    predict regNum (.numMatrix [[1, 2], [1, 2, 3]]) "default" []
      = .error (.inferenceFailure .raggedTensor) ∧
    ErrKind.inferenceFailure .raggedTensor ≠ ErrKind.invalidInputShape := by
  constructor
  · simp [predict, numericInference, ModelRegistry.get_model, dictGet, regNum]
  · decide

/-- C3, amended: for every numeric-path batch input whose rows do not all
share the first row's length, `predict` fails with `InferenceFailure`
wrapping the ragged-tensor error; the code never produces a distinct
`InvalidInputShape` kind. -/
theorem c3_theorem (reg : ModelRegistry) (name : String) (net : NumericNet)
    (r : List ℚ) (rs : List (List ℚ)) (params : List (String × String))
    (hm : reg.get_model name = some (.numeric net))
    (hname : name ≠ "text_embeddings")
    (hragged : ((r :: rs).all fun row => row.length == r.length) = false) :
    predict reg (.numMatrix (r :: rs)) name params
      = .error (.inferenceFailure .raggedTensor) := by
  simp [predict, numericInference, hm, hname, hragged]

/-- C3, witness: the amended ragged-batch behaviour evaluated at the
mismatched rows `[[1,2],[1,2,3]]` against the fixture registry. -/
theorem c3_witness :
    predict regNum (.numMatrix [[1, 2], [1, 2, 3]]) "default" []
      = .error (.inferenceFailure .raggedTensor) :=
  c3_theorem regNum "default" net0 [1, 2] [[1, 2, 3]] []
    (by simp [ModelRegistry.get_model, dictGet, regNum]) (by decide) (by decide)

/-- C4, counterexample: a call dispatched to the text path whose entry has
no tokenizer fails with the wrapped `InferenceFailure` kind — the
`ValueError` of line 113 is swallowed by the catch-all at lines 104-106 —
and not with a `TokenizerMissing` kind distinct from `InferenceFailure`, as
the claim requires. -/
theorem c4_counterexample :
    predict regC4 (.str "hi") "text_embeddings" []
      = .error (.inferenceFailure .tokenizerNotFound) ∧
    ErrKind.inferenceFailure .tokenizerNotFound ≠ ErrKind.tokenizerMissing := by
  constructor
  · simp [predict, textEmbeddingInference, ModelRegistry.get_model,
      ModelRegistry.get_tokenizer, dictGet, regC4]
  · decide

/-- C4, amended: every `predict` call dispatched to the text path whose
registry entry has no tokenizer attached fails with `InferenceFailure`
wrapping the tokenizer-not-found cause; no distinct `TokenizerMissing` kind
is produced. -/
theorem c4_theorem (reg : ModelRegistry) (inputs : Inputs) (m : ModelHandle)
    (params : List (String × String))
    (hm : reg.get_model "text_embeddings" = some m)
    (ht : reg.get_tokenizer "text_embeddings" = none) :
    predict reg inputs "text_embeddings" params
      = .error (.inferenceFailure .tokenizerNotFound) := by
  cases inputs <;> simp [predict, textEmbeddingInference, hm, ht]

/-- C4, witness: the amended missing-tokenizer behaviour evaluated at the
fixture registry whose `"text_embeddings"` entry lacks a tokenizer. -/
theorem c4_witness :
    predict regC4 (.str "hi") "text_embeddings" []
      = .error (.inferenceFailure .tokenizerNotFound) :=
  c4_theorem regC4 (.str "hi") (.text hidden0) []
    (by simp [ModelRegistry.get_model, dictGet, regC4])
    (by simp [ModelRegistry.get_tokenizer, dictGet, regC4])

/-- C5, counterexample: with the text entry of the fixture registry,
embedding `"a"` alone yields the vector `[97]`, but as element 0 of the
batch `["a", "other"]` it yields `[97/5]`: padding to the batch's longest
member makes the mean at line 124 average over the padded positions as
well, so batching is not free of cross-sample interaction. -/
theorem c5_counterexample :
    predict regText (.str "a") "text_embeddings" [] = .ok [[97]] ∧
    predict regText (.strList ["a", "other"]) "text_embeddings" []
      = .ok [[97 / 5], [546 / 5]] ∧
    ([(97 : ℚ)] : List ℚ) ≠ [97 / 5] := by
  refine ⟨?_, ?_, ?_⟩
  · simp [predict, textEmbeddingInference, ModelRegistry.get_model,
      ModelRegistry.get_tokenizer, dictGet, regText, tok0, hidden0,
      Tokenizer.encodeBatch, meanPool]
  · simp [predict, textEmbeddingInference, ModelRegistry.get_model,
      ModelRegistry.get_tokenizer, dictGet, regText, tok0, hidden0,
      Tokenizer.encodeBatch, meanPool]
    all_goals norm_num
  · intro h
    rw [List.cons.injEq] at h
    norm_num at h

/-- C5, amended: embedding a bare string equals embedding it as the sole
element of a one-element batch (the promotion at lines 115-116 makes the two
calls literally identical); the further equality with element 0 of a
two-element batch fails in general, because padding to the batch's longest
member changes the token dimension the mean pooling averages over. -/
theorem c5_theorem (reg : ModelRegistry) (s : String)
    (params : List (String × String)) :
    predict reg (.str s) "text_embeddings" params
      = predict reg (.strList [s]) "text_embeddings" params := by
  unfold predict
  cases h : reg.get_model "text_embeddings" with
  | none => rfl
  | some m => simp [textEmbeddingInference_str]

/-- C5, witness: the bare-string/singleton-batch agreement instantiated at
the fixture text registry and the string `"a"`. -/
theorem c5_witness :
    predict regText (.str "a") "text_embeddings" []
      = predict regText (.strList ["a"]) "text_embeddings" [] :=
  c5_theorem regText "a" []

/-- C6: a numeric-path input accepted by the shape policy — a nonempty flat
row whose length is the net's input width, or a nonempty batch of rows of
that width — yields a success whose outer dimension is the batch size (1 in
the flat case) and whose inner dimension is the net's output width (the
`LayersShape` hypothesis is the entry having input width `din` and output
width `w`). -/
theorem c6_theorem (reg : ModelRegistry) (name : String) (net : NumericNet)
    (din w : ℕ) (params : List (String × String)) (x : ℚ) (xs : List ℚ)
    (rows : List (List ℚ))
    (hm : reg.get_model name = some (.numeric net))
    (hname : name ≠ "text_embeddings")
    (hshape : LayersShape net.layers din w) :
    ((x :: xs).length = din →
      ∃ out, predict reg (.numList (x :: xs)) name params = .ok out ∧
        out.length = 1 ∧ ∀ o ∈ out, o.length = w) ∧
    (∀ r₀ rs', rows = r₀ :: rs' → (∀ r ∈ rows, r.length = din) →
      ∃ out, predict reg (.numMatrix rows) name params = .ok out ∧
        out.length = rows.length ∧ ∀ o ∈ out, o.length = w) := by
  constructor
  · intro hlen
    obtain ⟨outs, houts, hlen1, hall⟩ := forwardRows_shape hshape [x :: xs]
      (by intro r hr; rw [List.mem_singleton] at hr; rw [hr]; exact hlen)
    exact ⟨outs, by simp [predict, numericInference, hm, hname, houts],
      by simpa using hlen1, hall⟩
  · intro r₀ rs' hrows hall
    subst hrows
    obtain ⟨outs, houts, hlen', hall'⟩ := forwardRows_shape hshape (r₀ :: rs') hall
    have hcheck : ((r₀ :: rs').all fun row => row.length == r₀.length) = true := by
      rw [List.all_eq_true]
      intro row hrow
      simp only [beq_iff_eq]
      rw [hall row hrow, hall r₀ (by simp)]
    exact ⟨outs,
      by simp [predict, numericInference, hm, hname, hcheck, houts], hlen', hall'⟩

/-- C6, witness: the shape guarantee instantiated at the fixture net
(input width 2, output width 1), a flat input of width 2 and a two-row
batch of width 2. -/
theorem c6_witness :
    (∃ out, predict regNum (.numList [1, 2]) "default" [] = .ok out ∧
      out.length = 1 ∧ ∀ o ∈ out, o.length = 1) ∧
    (∃ out, predict regNum (.numMatrix [[1, 2], [3, 4]]) "default" [] = .ok out ∧
      out.length = 2 ∧ ∀ o ∈ out, o.length = 1) := by
  have hshape : LayersShape net0.layers 2 1 := by
    refine .linear ?_ rfl (.relu (.linear ?_ rfl (.relu (.linear ?_ rfl
      (.nil 1))))) <;> simp [net0]
  have h := c6_theorem regNum "default" net0 2 1 [] 1 [2] [[1, 2], [3, 4]]
    (by simp [ModelRegistry.get_model, dictGet, regNum]) (by decide) hshape
  exact ⟨h.1 rfl, h.2 [1, 2] [[3, 4]] rfl (by decide)⟩

/-- C7, counterexample: `processing_time_ms` is
`(time.time() − time.time()) * 1000` over the non-monotonic wall clock, so
a backwards clock step during the call (second reading 3 after a first
reading 5) produces a successful response with a negative
`processing_time_ms`, refuting the unconditional claim `≥ 0` (and its
monotonic-clock premise: line 148 uses `time.time()`, not a monotonic
clock). -/
theorem c7_counterexample :
    infer regNum ⟨.numList [1, 2], "default", []⟩ 5 3
      = .ok ⟨[[3]], "default", -2000, [("input_shape", "(2,)")]⟩ ∧
    ((-2000 : ℚ) < 0) := by
  constructor
  · simp [infer, predict, numericInference, ModelRegistry.get_model, dictGet,
      NumericNet.forwardRows, NumericNet.forwardRow, applyLayers,
      Layer.applyRow, dot, regNum, net0, inputShapeString, npShape1_two]
    all_goals norm_num [max_def]
  · norm_num

/-- C7, amended: on every successful call, `processing_time_ms` equals the
difference of the two `time.time()` readings times 1000, hence is ≥ 0
whenever the clock did not step backwards between them; the source uses
the non-monotonic wall clock, so this premise is not guaranteed. -/
theorem c7_theorem (reg : ModelRegistry) (req : InferenceRequest) (t0 t1 : ℚ)
    (resp : InferenceResponse) (hclock : t0 ≤ t1)
    (h : infer reg req t0 t1 = .ok resp) :
    0 ≤ resp.processing_time_ms := by
  unfold infer at h
  cases hp : predict reg req.inputs req.model_name req.parameters with
  | error e => rw [hp] at h; exact absurd h (by simp)
  | ok outputs =>
      rw [hp] at h
      injection h with h'
      rw [← h']
      exact mul_nonneg (sub_nonneg.mpr hclock) (by norm_num)

/-- C7, witness: nonnegative elapsed time at concrete forward clock
readings 0 and 2. -/
theorem c7_witness :
    0 ≤ (InferenceResponse.mk [[3]] "default" 2000
      [("input_shape", "(2,)")]).processing_time_ms := by
  apply c7_theorem regNum ⟨.numList [1, 2], "default", []⟩ 0 2
    ⟨[[3]], "default", 2000, [("input_shape", "(2,)")]⟩
  · norm_num
  · simp [infer, predict, numericInference, ModelRegistry.get_model,
      dictGet, NumericNet.forwardRows, NumericNet.forwardRow, applyLayers,
      Layer.applyRow, dot, regNum, net0, inputShapeString, npShape1_two]
    all_goals norm_num [max_def]

/-- C8, counterexample: two successful calls taking the two different
paths — a numeric batch to `"default"` and a string batch to
`"text_embeddings"` — produce identical metadata mappings
(`input_shape = "(2,)"`), so the metadata does not record whether the path
taken was numeric or text: line 163 stores only the numpy shape of a list
payload (or `"text"` for a bare string), never the dispatch path. -/
theorem c8_counterexample :
    selectedStrategy regBoth "default" = some Strategy.numeric ∧
    selectedStrategy regBoth "text_embeddings" = some Strategy.text ∧
    infer regBoth ⟨.numList [1, 2], "default", []⟩ 0 1
      = .ok ⟨[[3]], "default", 1000, [("input_shape", "(2,)")]⟩ ∧
    infer regBoth ⟨.strList ["a", "bb"], "text_embeddings", []⟩ 0 1
      = .ok ⟨[[97 / 2], [98]], "text_embeddings", 1000,
          [("input_shape", "(2,)")]⟩ ∧
    (InferenceResponse.mk [[3]] "default" 1000
        [("input_shape", "(2,)")]).metadata
      = (InferenceResponse.mk [[97 / 2], [98]] "text_embeddings" 1000
          [("input_shape", "(2,)")]).metadata := by
  refine ⟨?_, ?_, ?_, ?_, rfl⟩
  · simp [selectedStrategy, ModelRegistry.get_model, dictGet, regBoth]
  · simp [selectedStrategy, ModelRegistry.get_model, dictGet, regBoth]
  · simp [infer, predict, numericInference, ModelRegistry.get_model, dictGet,
      NumericNet.forwardRows, NumericNet.forwardRow, applyLayers,
      Layer.applyRow, dot, regBoth, net0, inputShapeString, npShape1_two]
    all_goals norm_num [max_def]
  · simp [infer, predict, textEmbeddingInference, ModelRegistry.get_model,
      ModelRegistry.get_tokenizer, dictGet, regBoth, tok0, hidden0,
      Tokenizer.encodeBatch, meanPool, inputShapeString, npShape1_two]

/-- C8, amended: on every successful call the metadata mapping holds
exactly the key `input_shape`, bound to the numpy shape string of the
payload when it is a list — whose leading component is the resolved input
cardinality — and to the marker `"text"` for a bare string; it records
neither the dispatch path nor, for a bare string, the cardinality. -/
theorem c8_theorem (reg : ModelRegistry) (req : InferenceRequest) (t0 t1 : ℚ)
    (resp : InferenceResponse) (h : infer reg req t0 t1 = .ok resp) :
    resp.metadata = [("input_shape", inputShapeString req.inputs)] := by
  unfold infer at h
  cases hp : predict reg req.inputs req.model_name req.parameters with
  | error e => rw [hp] at h; exact absurd h (by simp)
  | ok outputs =>
      rw [hp] at h
      injection h with h'
      rw [← h']

/-- C8, witness: the metadata contract of the amended claim at the concrete
numeric call of the counterexample. -/
theorem c8_witness :
    (InferenceResponse.mk [[3]] "default" 1000
        [("input_shape", "(2,)")]).metadata
      = [("input_shape", inputShapeString (.numList [1, 2]))] := by
  apply c8_theorem regBoth ⟨.numList [1, 2], "default", []⟩ 0 1
    ⟨[[3]], "default", 1000, [("input_shape", "(2,)")]⟩
  simp [infer, predict, numericInference, ModelRegistry.get_model,
    dictGet, NumericNet.forwardRows, NumericNet.forwardRow, applyLayers,
    Layer.applyRow, dot, regBoth, net0, inputShapeString, npShape1_two]
  all_goals norm_num [max_def]

/-- C9: populating an empty registry with entries bearing pairwise-distinct
names makes `list_models` return exactly those names in registration order,
and — `list_models` being a pure function of the registry state — two calls
with no registration in between return the same sequence. -/
theorem c9_theorem (entries : List (String × ModelHandle × Option Tokenizer))
    (hnodup : (entries.map fun e => e.1).Nodup) :
    (registerAll ModelRegistry.empty entries).list_models
        = entries.map (fun e => e.1) ∧
    (registerAll ModelRegistry.empty entries).list_models
        = (registerAll ModelRegistry.empty entries).list_models := by
  refine ⟨?_, rfl⟩
  have h := list_models_registerAll entries ModelRegistry.empty
    (by intro e _; simp [ModelRegistry.empty, ModelRegistry.list_models, dictKeys])
    hnodup
  simpa [ModelRegistry.empty, ModelRegistry.list_models, dictKeys] using h

/-- C9, witness: registration order observed on the two default entries. -/
theorem c9_witness :
    (registerAll ModelRegistry.empty entriesW).list_models
        = entriesW.map (fun e => e.1) ∧
    (registerAll ModelRegistry.empty entriesW).list_models
        = (registerAll ModelRegistry.empty entriesW).list_models :=
  c9_theorem entriesW (by simp [entriesW])

/-- C10: the empty list as inputs (in any of its payload readings — empty
numeric row, empty string batch, empty batch of rows) against a registered
numeric entry never yields a success: `inputs[0]` at line 132 raises
`IndexError`, which the dispatcher wraps into `InferenceFailure`. -/
theorem c10_theorem (reg : ModelRegistry) (name : String) (net : NumericNet)
    (params : List (String × String))
    (hm : reg.get_model name = some (.numeric net))
    (hname : name ≠ "text_embeddings") :
    predict reg (.numList []) name params
        = .error (.inferenceFailure .indexOutOfRange) ∧
    predict reg (.strList []) name params
        = .error (.inferenceFailure .indexOutOfRange) ∧
    predict reg (.numMatrix []) name params
        = .error (.inferenceFailure .indexOutOfRange) := by
  refine ⟨?_, ?_, ?_⟩ <;> simp [predict, numericInference, hm, hname]

/-- C10, witness: the empty-input failure at the fixture numeric entry. -/
theorem c10_witness :
    predict regNum (.numList []) "default" []
        = .error (.inferenceFailure .indexOutOfRange) ∧
    predict regNum (.strList []) "default" []
        = .error (.inferenceFailure .indexOutOfRange) ∧
    predict regNum (.numMatrix []) "default" []
        = .error (.inferenceFailure .indexOutOfRange) :=
  c10_theorem regNum "default" net0 []
    (by simp [ModelRegistry.get_model, dictGet, regNum]) (by decide)

end InferenceServer
